import Mathlib

/-!
Shallow embedding of contrib/amcheck/verify_gin.c: the GIN index integrity
checker.  The embedding covers the tuple reader (ginReadTupleWithoutState),
the page sanity checker (check_index_page), the downlink re-find
(gin_refind_parent), the posting-tree walker
(gin_check_posting_tree_parent_keys_consistency), the leaf payload
validator (validate_leaf) and the entry-tree walker
(gin_check_parent_keys_consistency).

Pages are modelled as structures holding the decoded fields the checker
reads; the key comparator ginCompareEntries is an arbitrary parameter
(the GinState collaborator), and entry tuples carry their attribute
number, key and null category directly, standing for
gintuple_get_attrnum / gintuple_get_key.  The traversal loops take a
fuel argument because the C loops need not terminate on cyclic graphs.
Out-of-bounds memory accesses performed by the C code are modelled by a
distinct outcome constructor.
-/

/-- Item pointer: a (block, offset) pair identifying a heap row. -/
structure ItemPtr where
  block : Nat
  offset : Nat
  deriving Repr, DecidableEq

/-- Posting item on internal data pages: item-pointer key plus child block
(PostingItem in gin_private.h). -/
structure PostingItem where
  key : ItemPtr
  child : Nat
  deriving Repr, DecidableEq

/-- Entry tuple as read by the checker.  attnum, key and category stand for
gintuple_get_attrnum / gintuple_get_key; downlinkBlk is
ItemPointerGetBlockNumber of t_tid (the downlink on internal pages);
posting is the posting payload (the decoded list for compressed tuples,
the raw item-pointer array otherwise); itemIdLen is ItemIdGetLength of the
tuple's line pointer and size is IndexTupleSize. -/
structure EntryTuple (K : Type) where
  attnum : Nat
  key : K
  category : Nat
  downlinkBlk : Nat
  isPostingTree : Bool
  postingTreeRoot : Nat
  isCompressed : Bool
  nPosting : Nat
  posting : List ItemPtr
  itemIdLen : Nat
  size : Nat
  deriving Repr, DecidableEq

/-- A GIN page as seen through the accessor macros: flag bits of the
opaque trailer, right sibling link, LSN, and the decoded line-pointer
array (entry pages) resp. posting-item array (data pages). -/
structure GinPage (K : Type) where
  isLeaf : Bool
  isData : Bool
  isDeleted : Bool
  rightlink : Nat
  lsn : Nat
  entries : List (EntryTuple K)
  items : List PostingItem
  deriving Repr, DecidableEq

/-- InvalidBlockNumber (0xFFFFFFFF). -/
def InvalidBlockNumber : Nat := 4294967295

/-- GIN_ROOT_BLKNO. -/
def GIN_ROOT_BLKNO : Nat := 0

/-- MaxIndexTuplesPerPage for 8kB pages:
(BLCKSZ - SizeOfPageHeaderData) / (MAXALIGN(sizeof(IndexTupleData)) + sizeof(ItemIdData)). -/
def MaxIndexTuplesPerPage : Nat := 680

/-- MaxOffsetNumber = BLCKSZ / sizeof(ItemIdData). -/
def MaxOffsetNumber : Nat := 2048

/-- MAXALIGN: round up to a multiple of 8. -/
def MAXALIGN (n : Nat) : Nat := 8 * ((n + 7) / 8)

/-- Errors raised with ERRCODE_INDEX_CORRUPTED or via elog(ERROR), with the
values interpolated into the message. -/
inductive GinError where
  | deletedInternalPage (blk : Nat)
  | deletedPageWithTuples (blk : Nat)
  | exceedingTupleCount (blk : Nat)
  | leafDepthMismatch (blk : Nat)
  | inconsistentTupleSizes (blk : Nat) (off : Nat)
  | wrongTupleOrder (blk : Nat) (off : Nat)
  | inconsistentRecords (blk : Nat) (off : Nat)
  | postingListDecodeMismatch (declared : Nat) (decoded : Nat)
  | invalidHeapPointer (blk : Nat)
  deriving Repr, DecidableEq

/-- Outcome of a checker computation: normal value, raised error,
out-of-bounds access performed by the C code (undefined behaviour), or
fuel exhaustion of the modelled loop. -/
inductive Res (α : Type) where
  | ok (val : α)
  | err (e : GinError)
  | ub (blk : Nat)
  | fuelOut
  deriving Repr, DecidableEq

/-- The NOTICE emitted when a downlink re-find comes back empty:
"Unable to find parent tuple for block childblk on block parentblk". -/
structure Notice where
  childblk : Nat
  parentblk : Nat
  deriving Repr, DecidableEq

/-- GinScanItem: one frame of the entry-tree depth-first scan. -/
structure GinScanItem (K : Type) where
  depth : Int
  parenttup : Option (EntryTuple K)
  parentblk : Nat
  parentlsn : Nat
  blkno : Nat
  deriving Repr, DecidableEq

/-- GinPostingTreeScanItem: one frame of the posting-tree scan. -/
structure GinPostingTreeScanItem where
  depth : Int
  parenttup : Option PostingItem
  parentblk : Nat
  blkno : Nat
  deriving Repr, DecidableEq

/-- ginCompareEntries collaborator: arguments are attnum, key_a, key_b,
category_a, category_b; negative / zero / positive result. -/
def Cmp (K : Type) : Type := Nat → K → K → Nat → Nat → Int

/-- The block store: ReadBufferExtended on the main fork, returning the
page for a block number. -/
def Store (K : Type) : Type := Nat → GinPage K

/-- ginReadTupleWithoutState: read item pointers from a leaf entry tuple.
For a compressed tuple with a positive header count the posting bytes are
decoded (ginPostingListDecode, modelled by the stored list) and the
decoded count must match the header count; a zero header count decodes
nothing and yields an empty array.  An uncompressed tuple is a plain
memcpy of nipd item pointers. -/
def ginReadTupleWithoutState {K : Type} (itup : EntryTuple K) :
    Res (List ItemPtr × Nat) :=
  let nipd := itup.nPosting
  if itup.isCompressed = true then
    if 0 < nipd then
      let ipd := itup.posting
      let ndecoded := ipd.length
      if nipd ≠ ndecoded then
        .err (.postingListDecodeMismatch nipd ndecoded)
      else
        .ok (ipd, nipd)
    else
      .ok ([], nipd)
  else
    .ok (itup.posting.take nipd, nipd)

/-- check_index_page: basic page sanity.  The generic header check
(gincheckpage) is an external collaborator and is outside this module's
code.  A deleted page must be a leaf and must have no line pointers; a
live page must not exceed MaxIndexTuplesPerPage. -/
def check_index_page {K : Type} (page : GinPage K) (blockNo : Nat) : Res Unit :=
  if page.isDeleted = true then
    if page.isLeaf = false then
      .err (.deletedInternalPage blockNo)
    else if 0 < page.entries.length then
      .err (.deletedPageWithTuples blockNo)
    else
      .ok ()
  else if MaxIndexTuplesPerPage < page.entries.length then
    .err (.exceedingTupleCount blockNo)
  else
    .ok ()

/-- gin_refind_parent: re-read the parent page; bail out with none if it is
now a leaf, otherwise return a detached copy of the first tuple whose
downlink equals the child block. -/
def gin_refind_parent {K : Type} (store : Store K)
    (parentblkno childblkno : Nat) : Option (EntryTuple K) :=
  let parentpage := store parentblkno
  if parentpage.isLeaf = true then
    none
  else
    parentpage.entries.find? (fun itup => itup.downlinkBlk == childblkno)

/-- Leaf-depth bookkeeping shared verbatim by both walkers: the first leaf
fixes leafdepth; later leaves whose frame depth differs raise the
corruption error naming the block. -/
def leafDepthStep (isLeaf : Bool) (blkno : Nat) (depth leafdepth : Int) :
    Res Int :=
  if isLeaf = true then
    if leafdepth = -1 then
      .ok depth
    else if depth ≠ leafdepth then
      .err (.leafDepthMismatch blkno)
    else
      .ok leafdepth
  else
    .ok leafdepth

/-- Child frame built for one posting item of an internal data page. -/
def mkPostingChildFrame (frame : GinPostingTreeScanItem) (it : PostingItem) :
    GinPostingTreeScanItem :=
  { depth := frame.depth + 1, parenttup := some it,
    parentblk := frame.blkno, blkno := it.child }

/-- Frames pushed by one posting-tree page visit: the loop skips (continue)
every item whose key has a zero block or zero offset, and pushes a child
frame for each remaining item when the page is internal.  Each push
prepends to the remaining stack, so the pushed frames end up in reverse
page order. -/
def postingChildFrames {K : Type} (page : GinPage K)
    (frame : GinPostingTreeScanItem) : List GinPostingTreeScanItem :=
  if page.isLeaf = true then
    []
  else
    ((page.items.filter
        (fun it => !(it.key.block == 0) && !(it.key.offset == 0))).map
      (mkPostingChildFrame frame)).reverse

/-- One page visit of the posting-tree walker (loop body of
gin_check_posting_tree_parent_keys_consistency).  The Assert on
GinPageIsData is compiled out of production builds; the order and
parent-consistency checks in this loop are commented out in the source. -/
def visitPostingPage {K : Type} (store : Store K)
    (frame : GinPostingTreeScanItem) (leafdepth : Int) :
    Res (List GinPostingTreeScanItem × Int) :=
  let page := store frame.blkno
  match leafDepthStep page.isLeaf frame.blkno frame.depth leafdepth with
  | .err e => .err e
  | .ub b => .ub b
  | .fuelOut => .fuelOut
  | .ok ld => .ok (postingChildFrames page frame, ld)

/-- The posting-tree scan loop, with fuel for the unbounded while. -/
def postingLoop {K : Type} (store : Store K) :
    Nat → List GinPostingTreeScanItem → Int → Res Unit
  | _, [], _ => .ok ()
  | 0, _ :: _, _ => .fuelOut
  | fuel + 1, frame :: rest, leafdepth =>
    match visitPostingPage store frame leafdepth with
    | .err e => .err e
    | .ub b => .ub b
    | .fuelOut => .fuelOut
    | .ok (pushed, ld) => postingLoop store fuel (pushed ++ rest) ld

/-- Initial frame of a posting-tree scan. -/
def initialPostingFrame (root : Nat) : GinPostingTreeScanItem :=
  { depth := 0, parenttup := none, parentblk := InvalidBlockNumber,
    blkno := root }

/-- gin_check_posting_tree_parent_keys_consistency: scan the posting tree
rooted at the given block, with a freshly initialised leaf depth. -/
def gin_check_posting_tree_parent_keys_consistency {K : Type}
    (store : Store K) (fuel : Nat) (root : Nat) : Res Unit :=
  postingLoop store fuel [initialPostingFrame root] (-1)

/-- Whether the heap-pointer check of validate_leaf accesses ipd[nipd-1]
inside the array returned by ginReadTupleWithoutState (the C index is the
int expression nipd-1, negative when nipd = 0). -/
def heapPtrAccessInBounds {K : Type} (itup : EntryTuple K) : Bool :=
  match ginReadTupleWithoutState itup with
  | .ok (ipd, nipd) => decide (1 ≤ nipd) && decide (nipd - 1 < ipd.length)
  | _ => true

/-- Loop body chain of validate_leaf over the page's entry tuples:
posting-tree tuples recurse into the posting-tree walker; posting-list
tuples are decoded and the last item pointer's offset must be a valid
offset number (OffsetNumberIsValid).  The C code indexes ipd[nipd-1]
unconditionally, which is out of bounds when nipd = 0. -/
def validateLeafLoop {K : Type} (store : Store K) (fuel : Nat) (blkno : Nat) :
    List (EntryTuple K) → Res Unit
  | [] => .ok ()
  | t :: rest =>
    if t.isPostingTree = true then
      match gin_check_posting_tree_parent_keys_consistency store fuel
          t.postingTreeRoot with
      | .err e => .err e
      | .ub b => .ub b
      | .fuelOut => .fuelOut
      | .ok _ => validateLeafLoop store fuel blkno rest
    else
      match ginReadTupleWithoutState t with
      | .err e => .err e
      | .ub b => .ub b
      | .fuelOut => .fuelOut
      | .ok (ipd, nipd) =>
        if h : 1 ≤ nipd ∧ nipd - 1 < ipd.length then
          let p := ipd.get ⟨nipd - 1, h.2⟩
          if p.offset = 0 ∨ MaxOffsetNumber < p.offset then
            .err (.invalidHeapPointer blkno)
          else
            validateLeafLoop store fuel blkno rest
        else
          .ub blkno

/-- validate_leaf: validate every leaf entry tuple of the page. -/
def validate_leaf {K : Type} (store : Store K) (fuel : Nat)
    (page : GinPage K) (blkno : Nat) : Res Unit :=
  validateLeafLoop store fuel blkno page.entries

/-- Parent-cover step of the entry walker (the body guarded by
stack->parenttup && i == maxoff): when the comparison of the current
tuple's key against the carried parent key is ≤ 0, re-find the downlink in
the parent; a missing downlink yields a NOTICE and replaces the carried
parent tuple by none; a re-found tuple is compared again and the
corruption error is raised only when the comparison is still ≤ 0. -/
def parentCoverStep {K : Type} (cmp : Cmp K) (store : Store K)
    (parentblk blkno : Nat) (parenttup : Option (EntryTuple K))
    (i maxoff : Nat) (cur : EntryTuple K) :
    Res (Option (EntryTuple K) × Option Notice) :=
  match parenttup with
  | none => .ok (parenttup, none)
  | some ptup =>
    if i = maxoff then
      if cmp cur.attnum cur.key ptup.key cur.category ptup.category ≤ 0 then
        match gin_refind_parent store parentblk blkno with
        | none =>
          .ok (none, some { childblk := blkno, parentblk := parentblk })
        | some newp =>
          if cmp cur.attnum cur.key newp.key cur.category newp.category ≤ 0 then
            .err (.inconsistentRecords blkno i)
          else
            .ok (some newp, none)
      else
        .ok (parenttup, none)
    else
      .ok (parenttup, none)

/-- Intra-page order condition as written in the source: for i past the
first offset, an error is raised when
ginCompareEntries(attnum, prev_key, current_key, prev_cat, current_cat) ≤ 0. -/
def orderBroken {K : Type} (cmp : Cmp K) (prev : Option (EntryTuple K))
    (cur : EntryTuple K) : Bool :=
  match prev with
  | none => false
  | some p =>
    decide (cmp cur.attnum p.key cur.key p.category cur.category ≤ 0)

/-- Concurrent-split adjustment of the entry walker: with a parent tuple
present, read the page-max tuple; when the right link is valid and the
page-max key compares ≤ 0 against the parent key (under the page-max
tuple's attribute), push a frame at the same depth with the same parent
metadata addressing the right sibling. -/
def splitSiblingFrames {K : Type} (cmp : Cmp K) (frame : GinScanItem K)
    (page : GinPage K) : List (GinScanItem K) :=
  match frame.parenttup, page.entries.getLast? with
  | some ptup, some pmax =>
    if page.rightlink ≠ InvalidBlockNumber ∧
        cmp pmax.attnum pmax.key ptup.key pmax.category ptup.category ≤ 0 then
      [{ depth := frame.depth, parenttup := some ptup,
         parentblk := frame.parentblk, parentlsn := frame.parentlsn,
         blkno := page.rightlink }]
    else
      []
  | _, _ => []

/-- Per-tuple loop of the entry walker (offsets i = 1 .. maxoff, with
prev_tuple threading): tuple size check (I7), intra-page order check,
parent-cover step, then child push (internal page) or validate_leaf
(leaf page, invoked once per tuple on the whole page, as in the source).
Child pushes prepend, ending up in reverse page order. -/
def entryLoop {K : Type} (cmp : Cmp K) (store : Store K) (fuel : Nat)
    (frame : GinScanItem K) (page : GinPage K) (lsn : Nat) (maxoff : Nat) :
    List (EntryTuple K) → Nat → Option (EntryTuple K) →
    Option (EntryTuple K) → List (GinScanItem K) → List Notice →
    Res (List (GinScanItem K) × List Notice)
  | [], _, _, _, acc, notes => .ok (acc, notes)
  | cur :: rest, i, prev, ptup, acc, notes =>
    if MAXALIGN cur.itemIdLen ≠ MAXALIGN cur.size then
      .err (.inconsistentTupleSizes frame.blkno i)
    else if orderBroken cmp prev cur = true then
      .err (.wrongTupleOrder frame.blkno i)
    else
      match parentCoverStep cmp store frame.parentblk frame.blkno ptup i
          maxoff cur with
      | .err e => .err e
      | .ub b => .ub b
      | .fuelOut => .fuelOut
      | .ok (ptup2, note) =>
        let notes2 := notes ++ note.toList
        if page.isLeaf = false then
          entryLoop cmp store fuel frame page lsn maxoff rest (i + 1)
            (some cur) ptup2
            ({ depth := frame.depth + 1, parenttup := some cur,
               parentblk := frame.blkno, parentlsn := lsn,
               blkno := cur.downlinkBlk } :: acc) notes2
        else
          match validate_leaf store fuel page frame.blkno with
          | .err e => .err e
          | .ub b => .ub b
          | .fuelOut => .fuelOut
          | .ok _ =>
            entryLoop cmp store fuel frame page lsn maxoff rest (i + 1)
              (some cur) ptup2 acc notes2

/-- One page visit of the entry walker: sanity check, concurrent-split
adjustment (reading the page-max tuple through PageGetItemIdCareful is an
out-of-bounds line-pointer access when the page is empty), leaf-depth
check, then the per-tuple loop.  Returns the frames to push (children in
reverse page order, then the split sibling), the updated leaf depth and
the emitted notices. -/
def visitEntryPage {K : Type} (cmp : Cmp K) (store : Store K) (fuel : Nat)
    (frame : GinScanItem K) (leafdepth : Int) :
    Res (List (GinScanItem K) × Int × List Notice) :=
  let page := store frame.blkno
  match check_index_page page frame.blkno with
  | .err e => .err e
  | .ub b => .ub b
  | .fuelOut => .fuelOut
  | .ok _ =>
    match frame.parenttup, page.entries.getLast? with
    | some _, none => .ub frame.blkno
    | _, _ =>
      let sib := splitSiblingFrames cmp frame page
      match leafDepthStep page.isLeaf frame.blkno frame.depth leafdepth with
      | .err e => .err e
      | .ub b => .ub b
      | .fuelOut => .fuelOut
      | .ok ld =>
        match entryLoop cmp store fuel frame page page.lsn
            page.entries.length page.entries 1 none frame.parenttup [] [] with
        | .err e => .err e
        | .ub b => .ub b
        | .fuelOut => .fuelOut
        | .ok (pushed, notes) => .ok (pushed ++ sib, ld, notes)

/-- The entry-tree scan loop, with fuel for the unbounded while. -/
def entryScanLoop {K : Type} (cmp : Cmp K) (store : Store K) :
    Nat → List (GinScanItem K) → Int → Res Unit
  | _, [], _ => .ok ()
  | 0, _ :: _, _ => .fuelOut
  | fuel + 1, frame :: rest, leafdepth =>
    match visitEntryPage cmp store fuel frame leafdepth with
    | .err e => .err e
    | .ub b => .ub b
    | .fuelOut => .fuelOut
    | .ok (pushed, ld, _) => entryScanLoop cmp store fuel (pushed ++ rest) ld

/-- Initial frame of the entry-tree scan: the fixed root with no parent. -/
def initialEntryFrame {K : Type} : GinScanItem K :=
  { depth := 0, parenttup := none, parentblk := InvalidBlockNumber,
    parentlsn := 0, blkno := GIN_ROOT_BLKNO }

/-- gin_check_parent_keys_consistency: scan the entry tree from the root,
with a freshly initialised leaf depth. -/
def gin_check_parent_keys_consistency {K : Type} (cmp : Cmp K)
    (store : Store K) (fuel : Nat) : Res Unit :=
  entryScanLoop cmp store fuel [initialEntryFrame] (-1)

/-- Concrete comparator used in witnesses and counterexamples: categories
first, then integer keys (the shape of ginCompareEntries). -/
def intCmp : Cmp Int := fun _ a b ca cb =>
  if ca < cb then -1
  else if cb < ca then 1
  else if a < b then -1
  else if b < a then 1
  else 0

/-- Concrete entry tuple with attribute a, key k and downlink dl, carrying
a one-element compressed posting list and consistent sizes. -/
def mkT (a : Nat) (k : Int) (dl : Nat) : EntryTuple Int :=
  { attnum := a, key := k, category := 0, downlinkBlk := dl,
    isPostingTree := false, postingTreeRoot := 0,
    isCompressed := true, nPosting := 1,
    posting := [{ block := 1, offset := 1 }],
    itemIdLen := 16, size := 16 }

/-- Empty leaf entry page used for unreachable blocks of concrete stores. -/
def emptyEntryPage : GinPage Int :=
  { isLeaf := true, isData := false, isDeleted := false,
    rightlink := InvalidBlockNumber, lsn := 0, entries := [], items := [] }

/-- Parent page of the C1 scenario: one downlink to block 1 with key 10. -/
def c1ParentPage : GinPage Int :=
  { isLeaf := false, isData := false, isDeleted := false,
    rightlink := InvalidBlockNumber, lsn := 0,
    entries := [mkT 1 10 1], items := [] }

/-- Child page of the C1 scenario: non-right-most leaf whose last tuple has
key 5, covered by the parent downlink key 10 (invariant I5 holds). -/
def c1ChildPage : GinPage Int :=
  { isLeaf := true, isData := false, isDeleted := false,
    rightlink := 2, lsn := 0, entries := [mkT 1 5 0], items := [] }

/-- Child page variant whose last tuple key 20 exceeds the parent downlink
key 10 (invariant I5 is violated). -/
def c1ChildPageBad : GinPage Int :=
  { isLeaf := true, isData := false, isDeleted := false,
    rightlink := 2, lsn := 0, entries := [mkT 1 20 0], items := [] }

/-- Store of the C1 consistent scenario. -/
def c1Store : Store Int := fun b =>
  if b = 0 then c1ParentPage else if b = 1 then c1ChildPage else emptyEntryPage

/-- Store of the C1 corrupted scenario. -/
def c1StoreBad : Store Int := fun b =>
  if b = 0 then c1ParentPage
  else if b = 1 then c1ChildPageBad
  else emptyEntryPage

/-- Frame under which the entry walker visits the C1 child page. -/
def c1Frame : GinScanItem Int :=
  { depth := 1, parenttup := some (mkT 1 10 1), parentblk := 0,
    parentlsn := 0, blkno := 1 }

/-- Store of the C6 scenario: the root is a live internal page with zero
tuples (zero downlinks, violating I3). -/
def c6Store : Store Int := fun b =>
  if b = 0 then
    { isLeaf := false, isData := false, isDeleted := false,
      rightlink := InvalidBlockNumber, lsn := 0, entries := [], items := [] }
  else emptyEntryPage

/-- Store of the C7 sorted scenario: the root is a leaf whose two tuples
are strictly increasing (keys 1 then 2). -/
def c7StoreSorted : Store Int := fun b =>
  if b = 0 then
    { isLeaf := true, isData := false, isDeleted := false,
      rightlink := InvalidBlockNumber, lsn := 0,
      entries := [mkT 1 1 0, mkT 1 2 0], items := [] }
  else emptyEntryPage

/-- Store of the C7 reversed scenario: the same two tuples in decreasing
order (keys 2 then 1), a genuine I4 violation. -/
def c7StoreRev : Store Int := fun b =>
  if b = 0 then
    { isLeaf := true, isData := false, isDeleted := false,
      rightlink := InvalidBlockNumber, lsn := 0,
      entries := [mkT 1 2 0, mkT 1 1 0], items := [] }
  else emptyEntryPage

/-- Internal data page of the C3 counterexample: its only posting item has
a key with offset 0 (a sentinel) and child block 5. -/
def c3Page : GinPage Int :=
  { isLeaf := false, isData := true, isDeleted := false,
    rightlink := InvalidBlockNumber, lsn := 0, entries := [],
    items := [{ key := { block := 1, offset := 0 }, child := 5 }] }

/-- Posting-tree frame visiting the C3 page. -/
def c3Frame : GinPostingTreeScanItem :=
  { depth := 0, parenttup := none, parentblk := InvalidBlockNumber,
    blkno := 3 }

/-- Leaf entry tuple declaring zero posting items (C10 scenario). -/
def c10Tuple : EntryTuple Int :=
  { attnum := 1, key := 7, category := 0, downlinkBlk := 0,
    isPostingTree := false, postingTreeRoot := 0,
    isCompressed := true, nPosting := 0, posting := [],
    itemIdLen := 16, size := 16 }

/-- Leaf page holding the zero-item tuple of the C10 scenario. -/
def c10Page : GinPage Int :=
  { isLeaf := true, isData := false, isDeleted := false,
    rightlink := InvalidBlockNumber, lsn := 0, entries := [c10Tuple],
    items := [] }

/-- Store of the C10 scenario. -/
def c10Store : Store Int := fun _ => c10Page

/-- Current tuple of the C2 witness scenario (key 20). -/
def w2cur : EntryTuple Int := mkT 1 20 0

/-- Stale parent tuple of the C2 witness scenario (key 30). -/
def w2old : EntryTuple Int := mkT 1 30 0

/-- Refreshed parent tuple of the C2 witness scenario: downlink to block 1,
key 10. -/
def w2new : EntryTuple Int := mkT 1 10 1

/-- Store of the C2 witness scenario: block 0 is the internal parent page
holding the refreshed downlink tuple. -/
def w2Store : Store Int := fun b =>
  if b = 0 then
    { isLeaf := false, isData := false, isDeleted := false,
      rightlink := InvalidBlockNumber, lsn := 0, entries := [w2new],
      items := [] }
  else emptyEntryPage

/-- Page of the C4 witness scenario: right link 9, page-max key 5. -/
def w4Page : GinPage Int :=
  { isLeaf := true, isData := false, isDeleted := false,
    rightlink := 9, lsn := 0, entries := [mkT 1 5 0], items := [] }

/-- Frame of the C4 witness scenario: parent tuple with key 10. -/
def w4Frame : GinScanItem Int :=
  { depth := 2, parenttup := some (mkT 1 10 1), parentblk := 0,
    parentlsn := 3, blkno := 1 }

/-- Compressed leaf entry tuple declaring zero posting items, used to
witness the zero-count branch of the tuple reader. -/
def c9Tuple : EntryTuple Int :=
  { attnum := 1, key := 3, category := 0, downlinkBlk := 0,
    isPostingTree := false, postingTreeRoot := 0,
    isCompressed := true, nPosting := 0, posting := [],
    itemIdLen := 16, size := 16 }

/-- C1: the parent-cover comparison of the entry walker is inverted with
respect to invariant I5.  Visiting a non-right-most child whose last tuple
key 5 is covered by the parent downlink key 10 (compare < 0, so the claim
says the verifier accepts) raises the inconsistent-records corruption
error, while a child whose last key 20 exceeds the parent key 10 (the
corruption the claim says must be reported) is accepted. -/
theorem gin_C1_parent_cover_inverted :
    intCmp 1 (5 : Int) 10 0 0 < 0 ∧
    visitEntryPage intCmp c1Store 4 c1Frame (-1) =
      .err (.inconsistentRecords 1 1) ∧
    0 < intCmp 1 (20 : Int) 10 0 0 ∧
    visitEntryPage intCmp c1StoreBad 4 c1Frame (-1) = .ok ([], 1, []) :=
  ⟨by decide, rfl, by decide, rfl⟩

/-- C2: when a parent tuple is carried and the current tuple is the last
on its page and the required comparison (> 0 against the parent key)
fails, the walker re-finds the downlink on the parent page; a missing
downlink yields a notice and no error, and the corruption error is raised
exactly when the comparison against the re-found parent tuple fails
again. -/
theorem gin_C2_refind_behavior {K : Type} (cmp : Cmp K) (store : Store K)
    (parentblk blkno maxoff : Nat) (ptup cur : EntryTuple K)
    (hfail : cmp cur.attnum cur.key ptup.key cur.category ptup.category ≤ 0) :
    (gin_refind_parent store parentblk blkno = none →
      parentCoverStep cmp store parentblk blkno (some ptup) maxoff maxoff cur =
        .ok (none, some { childblk := blkno, parentblk := parentblk })) ∧
    (∀ newp, gin_refind_parent store parentblk blkno = some newp →
      (cmp cur.attnum cur.key newp.key cur.category newp.category ≤ 0 →
        parentCoverStep cmp store parentblk blkno (some ptup) maxoff maxoff cur =
          .err (.inconsistentRecords blkno maxoff)) ∧
      (0 < cmp cur.attnum cur.key newp.key cur.category newp.category →
        parentCoverStep cmp store parentblk blkno (some ptup) maxoff maxoff cur =
          .ok (some newp, none))) := by
  constructor
  · intro h
    simp [parentCoverStep, hfail, h]
  · intro newp h
    constructor
    · intro h2
      simp [parentCoverStep, hfail, h, h2]
    · intro h2
      have h3 : ¬ cmp cur.attnum cur.key newp.key cur.category newp.category ≤ 0 := by
        omega
      simp [parentCoverStep, hfail, h, h3]

/-- C2 witness: concrete re-find that succeeds and passes the repeated
comparison, so the walker continues without error carrying the refreshed
parent tuple. -/
theorem gin_C2_refind_behavior_witness :
    parentCoverStep intCmp w2Store 0 1 (some w2old) 1 1 w2cur =
      .ok (some w2new, none) :=
  ((gin_C2_refind_behavior intCmp w2Store 0 1 1 w2old w2cur (by decide)).2
      w2new rfl).2 (by decide)

/-- C3 counterexample: an internal data page whose only posting item has a
key with zero offset and child block 5; contrary to the claim that a child
frame is pushed for every posting item, no frame at all is pushed, so
child block 5 is not visited through this item. -/
theorem gin_C3_sentinel_child_not_pushed :
    c3Page.isLeaf = false ∧
    c3Page.items = [{ key := { block := 1, offset := 0 }, child := 5 }] ∧
    postingChildFrames c3Page c3Frame = [] :=
  ⟨rfl, rfl, rfl⟩

/-- C3 amended: on an internal data page a child frame carrying the item
as parent item is pushed exactly for the posting items whose key has a
nonzero block and a nonzero offset; items with a zero block or zero
offset are skipped entirely, so their child blocks are not descended into
through those items. -/
theorem gin_C3_child_frames_pushed_iff {K : Type} (page : GinPage K)
    (frame : GinPostingTreeScanItem) (f : GinPostingTreeScanItem) :
    f ∈ postingChildFrames page frame ↔
      page.isLeaf = false ∧ ∃ it ∈ page.items,
        it.key.block ≠ 0 ∧ it.key.offset ≠ 0 ∧
        f = mkPostingChildFrame frame it := by
  unfold postingChildFrames
  cases h : page.isLeaf <;> simp [h, List.mem_filter]
  constructor
  · rintro ⟨it, ⟨hmem, hb, ho⟩, hf⟩
    exact ⟨it, hmem, hb, ho, hf.symm⟩
  · rintro ⟨it, hmem, hb, ho, hf⟩
    exact ⟨it, ⟨hmem, hb, ho⟩, hf.symm⟩

/-- C4: the concurrent-split adjustment pushes a sibling frame exactly
when a parent tuple is carried, the page-max tuple exists, the right link
is valid and the comparison of the page-max key against the parent key is
≤ 0; the pushed frame keeps the depth and parent metadata and addresses
the right sibling. -/
theorem gin_C4_split_sibling {K : Type} (cmp : Cmp K) (frame : GinScanItem K)
    (page : GinPage K) :
    (frame.parenttup = none → splitSiblingFrames cmp frame page = []) ∧
    (∀ ptup pmax, frame.parenttup = some ptup →
      page.entries.getLast? = some pmax →
      ((page.rightlink ≠ InvalidBlockNumber ∧
          cmp pmax.attnum pmax.key ptup.key pmax.category ptup.category ≤ 0) →
        splitSiblingFrames cmp frame page =
          [{ depth := frame.depth, parenttup := some ptup,
             parentblk := frame.parentblk, parentlsn := frame.parentlsn,
             blkno := page.rightlink }]) ∧
      (¬(page.rightlink ≠ InvalidBlockNumber ∧
          cmp pmax.attnum pmax.key ptup.key pmax.category ptup.category ≤ 0) →
        splitSiblingFrames cmp frame page = [])) := by
  constructor
  · intro h
    simp [splitSiblingFrames, h]
  · intro ptup pmax h1 h2
    constructor <;> intro h3 <;> simp [splitSiblingFrames, h1, h2, h3]

/-- C4 witness: concrete page with a valid right link 9 and page-max key 5
below the parent key 10, so the sibling frame at the same depth with the
same parent metadata is pushed. -/
theorem gin_C4_split_sibling_witness :
    splitSiblingFrames intCmp w4Frame w4Page =
      [{ depth := 2, parenttup := some (mkT 1 10 1), parentblk := 0,
         parentlsn := 3, blkno := 9 }] :=
  ((gin_C4_split_sibling intCmp w4Frame w4Page).2 (mkT 1 10 1) (mkT 1 5 0)
      rfl rfl).1 (by decide)

/-- C5: leaf-depth bookkeeping of both walkers: the first leaf encountered
fixes the leaf depth, a later leaf whose frame depth differs raises the
corruption error naming its block, a matching depth passes, internal pages
leave the depth unchanged; and each of the two walkers starts its scan
with its own leaf depth freshly initialised to -1. -/
theorem gin_C5_leaf_depth :
    (∀ (blk : Nat) (d : Int), leafDepthStep true blk d (-1) = .ok d) ∧
    (∀ (blk : Nat) (d ld : Int), ld ≠ -1 → d ≠ ld →
      leafDepthStep true blk d ld = .err (.leafDepthMismatch blk)) ∧
    (∀ (blk : Nat) (d : Int), d ≠ -1 → leafDepthStep true blk d d = .ok d) ∧
    (∀ (blk : Nat) (d ld : Int), leafDepthStep false blk d ld = .ok ld) ∧
    (∀ (K : Type) (cmp : Cmp K) (store : Store K) (fuel : Nat),
      gin_check_parent_keys_consistency cmp store fuel =
        entryScanLoop cmp store fuel [initialEntryFrame] (-1)) ∧
    (∀ (K : Type) (store : Store K) (fuel root : Nat),
      gin_check_posting_tree_parent_keys_consistency store fuel root =
        postingLoop store fuel [initialPostingFrame root] (-1)) := by
  refine ⟨?_, ?_, ?_, ?_, fun _ _ _ _ => rfl, fun _ _ _ _ => rfl⟩ <;>
    intros <;> simp [leafDepthStep, *]

/-- C5 witness: a leaf visited at depth 2 after the leaf depth was fixed
at 1 raises the mismatch error naming block 7. -/
theorem gin_C5_leaf_depth_witness :
    leafDepthStep true 7 2 1 = .err (.leafDepthMismatch 7) :=
  gin_C5_leaf_depth.2.1 7 2 1 (by decide) (by decide)

/-- C6: a live internal root page with zero tuples (zero downlinks,
violating I3) is accepted by the entry walker: the full scan terminates
without raising any error. -/
theorem gin_C6_empty_internal_root_accepted :
    (c6Store GIN_ROOT_BLKNO).isLeaf = false ∧
    (c6Store GIN_ROOT_BLKNO).isDeleted = false ∧
    (c6Store GIN_ROOT_BLKNO).entries = [] ∧
    gin_check_parent_keys_consistency intCmp c6Store 2 = .ok () :=
  ⟨rfl, rfl, rfl, rfl⟩

/-- C7: the intra-page order comparison is inverted in the code: a leaf
page whose two tuples are strictly increasing (compare(prev, cur) < 0,
which the claim says must be accepted) raises the wrong-tuple-order error
naming the block and the second offset, while the same tuples in
decreasing order (a genuine I4 violation) are accepted. -/
theorem gin_C7_order_check_inverted :
    intCmp 1 (1 : Int) 2 0 0 < 0 ∧
    visitEntryPage intCmp c7StoreSorted 2 initialEntryFrame (-1) =
      .err (.wrongTupleOrder 0 2) ∧
    0 < intCmp 1 (2 : Int) 1 0 0 ∧
    visitEntryPage intCmp c7StoreRev 2 initialEntryFrame (-1) =
      .ok ([], 0, []) :=
  ⟨by decide, rfl, by decide, rfl⟩

/-- C8: the page sanity checker accepts exactly when the page is neither a
deleted non-leaf, nor a deleted page with live tuples, nor a live page
with more tuples than the per-page maximum; in particular a deleted leaf
with zero tuples passes and the density bound is only applied to
non-deleted pages. -/
theorem gin_C8_check_index_page_iff {K : Type} (page : GinPage K)
    (blk : Nat) :
    check_index_page page blk = .ok () ↔
      ¬((page.isDeleted = true ∧ page.isLeaf = false) ∨
        (page.isDeleted = true ∧ page.entries.length ≠ 0) ∨
        (page.isDeleted = false ∧
          MaxIndexTuplesPerPage < page.entries.length)) := by
  unfold check_index_page
  cases hd : page.isDeleted <;> cases hl : page.isLeaf <;>
    simp [hd, hl]

/-- C9: reading a compressed leaf entry tuple raises the decoding-mismatch
error reporting the header count and the decoded count exactly when the
positive header count differs from the decoded count; matching counts
return the decoded array and the header count, and a zero header count
decodes nothing and returns an empty array without error. -/
theorem gin_C9_read_tuple_compressed {K : Type} (itup : EntryTuple K)
    (h : itup.isCompressed = true) :
    (0 < itup.nPosting → itup.nPosting ≠ itup.posting.length →
      ginReadTupleWithoutState itup =
        .err (.postingListDecodeMismatch itup.nPosting itup.posting.length)) ∧
    (0 < itup.nPosting → itup.nPosting = itup.posting.length →
      ginReadTupleWithoutState itup = .ok (itup.posting, itup.nPosting)) ∧
    (itup.nPosting = 0 → ginReadTupleWithoutState itup = .ok ([], 0)) := by
  refine ⟨fun h1 h2 => ?_, fun h1 h2 => ?_, fun h1 => ?_⟩ <;>
    simp [ginReadTupleWithoutState, h, h1]
  · simp [h2]
  · simp [h2]

/-- C9 witness: a compressed tuple declaring zero items is read back as an
empty array with count zero and no error. -/
theorem gin_C9_read_tuple_compressed_witness :
    ginReadTupleWithoutState c9Tuple = .ok ([], 0) :=
  (gin_C9_read_tuple_compressed c9Tuple rfl).2.2 rfl

/-- C10: for a leaf entry tuple declaring zero posting items the tuple
reader returns an empty array with count zero, and the heap-pointer check
of validate_leaf then reads ipd[nitems-1] = ipd[-1], which is out of the
bounds of that array: visiting such a page is an out-of-bounds access, not
a completed check. -/
theorem gin_C10_zero_items_out_of_bounds :
    ginReadTupleWithoutState c10Tuple = .ok ([], 0) ∧
    heapPtrAccessInBounds c10Tuple = false ∧
    validate_leaf c10Store 1 c10Page 3 = .ub 3 :=
  ⟨rfl, rfl, rfl⟩
